import Mathlib

/-
Verification development for the personal-website research-chat pipeline.

The embedding covers three source modules:
  - the research data collection module (loadBlogPosts, loadProjectsData,
    loadSiteInfo, aggregateResearchDocuments);
  - the research chat API route (loadResearchContent, POST);
  - the client chat widget state (handleSendMessage and the session events).

The filesystem is modelled as explicit data: a blog directory holding named
files whose contents either read successfully (some text) or throw on read
(none), a collections JSON file that is absent, malformed (JSON parse throws)
or parsed into its projects and publications item lists, and a personal JSON
file holding its raw text together with the result of parsing and
re-serializing it (none when parsing throws). JSON parsing itself is
abstracted as data in this way; everything else follows the source line by
line. JavaScript regular expressions used by the source are implemented as
explicit scanning functions over character lists with the same leftmost-match
semantics. Strings are modelled through their character lists, so all
definitions are executable and all concrete scenarios evaluate by decide.
-/

/-! String helpers mirroring the JavaScript string operations used. -/

/-- Trim of leading and trailing whitespace, mirroring the trim method. -/
def trimWs (s : String) : String :=
  String.mk (((s.data.dropWhile Char.isWhitespace).reverse.dropWhile Char.isWhitespace).reverse)

/-- Take of the first n characters, mirroring substring from zero to n. -/
def strTake (s : String) (n : Nat) : String :=
  String.mk (s.data.take n)

/-- Divider of fifty equality-sign characters, mirroring the repeat call. -/
def eq50 : String :=
  String.mk (List.replicate 50 '=')

/-- Divider of sixty equality-sign characters used in the system prompt. -/
def eq60 : String :=
  String.mk (List.replicate 60 '=')

/-- Test for the mdx extension, mirroring the endsWith call. -/
def hasMdxExt (name : String) : Bool :=
  ".mdx".data.isSuffixOf name.data

/-- Removal of a trailing mdx extension, mirroring the anchored replace. -/
def stripMdx (name : String) : String :=
  if hasMdxExt name then String.mk (name.data.take (name.data.length - 4)) else name

/-- Replacement of every hyphen by a space, mirroring the global replace. -/
def dashToSpace (s : String) : String :=
  String.mk (s.data.map (fun c => if c = '-' then ' ' else c))

/-- Split at the leftmost occurrence of a character pattern, returning the
parts before and after it; none when the pattern does not occur. -/
def splitAtFirst (sub : List Char) : List Char → Option (List Char × List Char)
  | [] => if sub.isPrefixOf ([] : List Char) then some ([], []) else none
  | a :: t =>
    if sub.isPrefixOf (a :: t) then some ([], (a :: t).drop sub.length)
    else (splitAtFirst sub t).map (fun p => (a :: p.1, p.2))

/-- Substring test, mirroring the includes method. -/
def strIncludes (s sub : String) : Bool :=
  (splitAtFirst sub.data s.data).isSome

/-- Front-matter split, mirroring the anchored regular expression that
captures a lazily matched block between an opening marker line and the first
closing marker line, together with everything after it. -/
def fmSplit (c : String) : Option (String × String) :=
  if "---\n".data.isPrefixOf c.data then
    match splitAtFirst "\n---\n".data (c.data.drop 4) with
    | some p => some (String.mk p.1, String.mk p.2)
    | none => none
  else none

/-- Double quote character. -/
def dquoteC : Char := Char.ofNat 34

/-- Single quote character. -/
def squoteC : Char := Char.ofNat 39

/-- Attempt to match the title pattern at the head of the character list:
the literal key, optional whitespace, a quote, one or more non-quote
characters captured, and a closing quote. -/
def matchTitleAt (s : List Char) : Option String :=
  if "title:".data.isPrefixOf s then
    match (s.drop 6).dropWhile Char.isWhitespace with
    | [] => none
    | q :: r3 =>
      if q = dquoteC ∨ q = squoteC then
        let cap := r3.takeWhile (fun c => ¬ (c = dquoteC ∨ c = squoteC))
        if cap.length = 0 then none
        else if cap.length < r3.length then some (String.mk cap) else none
      else none
  else none

/-- Leftmost match of the title pattern anywhere in the character list,
mirroring the unanchored regular expression search. -/
def scanTitle : List Char → Option String
  | [] => none
  | c :: t =>
    match matchTitleAt (c :: t) with
    | some r => some r
    | none => scanTitle t

/-- Join with a separator, mirroring the array join method. -/
def joinSep (sep : String) : List String → String
  | [] => ""
  | [x] => x
  | x :: y :: rest => x ++ sep ++ joinSep sep (y :: rest)

/-- Concatenation of a list of strings in order. -/
def concatAll (l : List String) : String :=
  l.foldl (fun a b => a ++ b) ""

/-- Split of a string into its newline-separated lines. -/
def splitNlChars : List Char → List (List Char)
  | [] => [[]]
  | c :: t =>
    if c = '\n' then [] :: splitNlChars t
    else
      match splitNlChars t with
      | [] => [[c]]
      | h :: r => (c :: h) :: r

/-- Lines of a string. -/
def strLines (s : String) : List String :=
  (splitNlChars s.data).map String.mk

/-- Fallback for a falsy optional string, mirroring the or-default idiom
where the empty string also falls back. -/
def orNA : Option String → String
  | none => "N/A"
  | some a => if a = "" then "N/A" else a

/-! Data model: the on-disk world consumed by the loaders. -/

/-- One file of the blog directory: its name and its content, where none
models a read that throws. -/
structure BlogFile where
  name : String
  content : Option String
deriving DecidableEq

/-- One project record of the collections file. -/
structure ProjectRec where
  name : String
  dates : String
  description : String
  technologies : Option (List String)
deriving DecidableEq

/-- One publication record of the collections file. -/
structure PubRec where
  name : String
  dates : String
  description : String
  authors : Option String
deriving DecidableEq

/-- Parsed shape of the collections file: the optional projects item list
and the optional publications item list. -/
structure CollectionsData where
  projects : Option (List ProjectRec)
  publications : Option (List PubRec)
deriving DecidableEq

/-- The collections file as found on disk: malformed models content on which
the JSON parse throws. -/
inductive CollectionsFile
  | malformed
  | parsed (data : CollectionsData)
deriving DecidableEq

/-- The personal info file: its raw text, and the result of parsing and
re-serializing it with two-space indentation, none when the parse throws. -/
structure PersonalFile where
  raw : String
  parsed : Option String
deriving DecidableEq

/-- The on-disk state read by the loaders: each field is none when the
corresponding path does not exist. -/
structure FS where
  blogDir : Option (List BlogFile)
  collections : Option CollectionsFile
  personal : Option PersonalFile

/-- Static site configuration imported by the site info loader. -/
structure SiteConfig where
  url : String
  lastUpdated : String

/-! Research data collection module. -/

/-- Source category of a research document. -/
inductive Source
  | project
  | publication
  | blog
  | general
deriving DecidableEq

/-- Metadata of a research document. -/
structure ResearchMeta where
  url : Option String
  date : Option String
  tags : Option (List String)
deriving DecidableEq

/-- One unit of aggregated research content. -/
structure ResearchDocument where
  id : String
  title : String
  content : String
  source : Source
  metadata : ResearchMeta
deriving DecidableEq

/-- Document built from one blog file by the blog loader. -/
def blogDoc (name content : String) : ResearchDocument :=
  { id := "blog_" ++ name
    title := dashToSpace (stripMdx name)
    content :=
      (match fmSplit content with | some p => p.1 | none => "") ++ "\n\n" ++
      (match fmSplit content with | some p => p.2 | none => content)
    source := Source.blog
    metadata := { url := none, date := none, tags := some ["blog", stripMdx name] } }

/-- Loop of the blog loader over the directory listing: non-mdx names are
skipped, a file whose read throws aborts the whole loader. -/
def loadBlogPostsFrom : List BlogFile → Except Unit (List ResearchDocument)
  | [] => Except.ok []
  | f :: rest =>
    if hasMdxExt f.name then
      match f.content with
      | none => Except.error ()
      | some c => (loadBlogPostsFrom rest).map (fun docs => blogDoc f.name c :: docs)
    else loadBlogPostsFrom rest

/-- Blog loader: an absent directory yields the empty list. -/
def loadBlogPosts : Option (List BlogFile) → Except Unit (List ResearchDocument)
  | none => Except.ok []
  | some files => loadBlogPostsFrom files

/-- Technologies label text: joined list, with the not-available fallback
when the field is absent or the join is empty. -/
def techStr : Option (List String) → String
  | none => "N/A"
  | some l => if joinSep ", " l = "" then "N/A" else joinSep ", " l

/-- Document built from one project record. -/
def projectDoc (p : ProjectRec) : ResearchDocument :=
  { id := "project_" ++ p.name
    title := p.name
    content :=
      "Title: " ++ p.name ++ "\nDates: " ++ p.dates ++ "\nDescription: " ++
      p.description ++ "\nTechnologies: " ++ techStr p.technologies
    source := Source.project
    metadata := { url := none, date := none, tags := some ("project" :: p.technologies.getD []) } }

/-- Document built from one publication record. -/
def pubDoc (pb : PubRec) : ResearchDocument :=
  { id := "publication_" ++ pb.name
    title := pb.name
    content :=
      "Title: " ++ pb.name ++ "\nAuthors: " ++ orNA pb.authors ++ "\nDates: " ++
      pb.dates ++ "\nDescription: " ++ pb.description
    source := Source.publication
    metadata := { url := none, date := none, tags := some ["publication", "research"] } }

/-- Body of the projects loader before its catch clause: an absent file
yields the empty list, a malformed file throws, a parsed file yields the
project documents followed by the publication documents. -/
def loadProjectsDataE : Option CollectionsFile → Except Unit (List ResearchDocument)
  | none => Except.ok []
  | some CollectionsFile.malformed => Except.error ()
  | some (CollectionsFile.parsed d) =>
    Except.ok ((d.projects.getD []).map projectDoc ++ (d.publications.getD []).map pubDoc)

/-- Projects loader with its catch clause: a thrown error is logged and the
documents accumulated so far, the empty list, are returned. -/
def loadProjectsData (c : Option CollectionsFile) : List ResearchDocument :=
  match loadProjectsDataE c with
  | Except.ok docs => docs
  | Except.error _ => []

/-- Site info loader: reading the personal file raw and combining it with
the static site configuration; any read error yields the empty list. -/
def loadSiteInfo (site : SiteConfig) : Option PersonalFile → List ResearchDocument
  | none => []
  | some p =>
    [ { id := "site_info"
        title := "Site Information"
        content :=
          "Website: " ++ site.url ++ "\nLast Updated: " ++ site.lastUpdated ++ "\n\n" ++ p.raw
        source := Source.general
        metadata := { url := none, date := none, tags := some ["general", "about"] } } ]

/-- Aggregation of the three loaders: blog documents, then project and
publication documents, then the site info document. A rejection of the blog
loader rejects the whole aggregation. -/
def aggregateResearchDocuments (site : SiteConfig) (fs : FS) : Except Unit (List ResearchDocument) :=
  (loadBlogPosts fs.blogDir).map
    (fun blogs => blogs ++ loadProjectsData fs.collections ++ loadSiteInfo site fs.personal)

/-! Research chat API route: context assembler. -/

/-- Title of a blog file for the context assembler: the leftmost quoted
title pattern anywhere in the content when present, else the file name with
its extension stripped. -/
def titleOf (name content : String) : String :=
  match scanTitle content.data with
  | some t => t
  | none => stripMdx name

/-- Body of a blog file after front-matter removal; the whole content when
no front-matter block matches. -/
def bodyOf (content : String) : String :=
  match fmSplit content with
  | some p => p.2
  | none => content

/-- Contribution of one blog file to the blog section: a file whose read
throws is caught per file and contributes nothing. -/
def blogEntry (f : BlogFile) : String :=
  match f.content with
  | none => ""
  | some c =>
    "\n[BLOG] " ++ titleOf f.name c ++ "\n" ++ strTake (bodyOf c) 800 ++ "\n...\n"

/-- Blog section of the assembled context: header and divider, then the
entries of the first ten mdx files of the directory listing. -/
def blogSection : Option (List BlogFile) → String
  | none => ""
  | some files =>
    "BLOG POSTS:\n" ++ eq50 ++ "\n" ++
      concatAll (((files.filter (fun f => hasMdxExt f.name)).take 10).map blogEntry)

/-- Contribution of one project record to the projects section. -/
def projEntry (p : ProjectRec) : String :=
  "\n[PROJECT] " ++ p.name ++ " (" ++ p.dates ++ ")\n" ++
  "Description: " ++ p.description ++ "\n" ++
  (match p.technologies with
   | none => ""
   | some l => "Technologies: " ++ joinSep ", " l ++ "\n")

/-- Contribution of one publication record to the publications section. -/
def pubEntry (pb : PubRec) : String :=
  "\n[PUBLICATION] " ++ pb.name ++ "\n" ++
  "Authors: " ++ orNA pb.authors ++ "\n" ++
  "Date: " ++ pb.dates ++ "\n" ++
  "Description: " ++ pb.description ++ "\n"

/-- Sections contributed by a parsed collections file: the first ten
projects and the first ten publications, each section only when its item
list is present. -/
def collSectionData (d : CollectionsData) : String :=
  (match d.projects with
   | none => ""
   | some items =>
     "\n\nPROJECTS:\n" ++ eq50 ++ "\n" ++ concatAll ((items.take 10).map projEntry)) ++
  (match d.publications with
   | none => ""
   | some items =>
     "\n\nPUBLICATIONS:\n" ++ eq50 ++ "\n" ++ concatAll ((items.take 10).map pubEntry))

/-- Personal information section built from the serialized personal data,
truncated to its first thousand characters. -/
def personalBlock (s : String) : String :=
  "\n\nPERSONAL INFORMATION:\n" ++ eq50 ++ "\n" ++ strTake s 1000

/-- Fallback applied to the assembled content: the placeholder string when
the content is empty. -/
def finalize (s : String) : String :=
  if s = "" then "No research content available" else s

/-- Continuation of the context assembler after the collections step, with
the content accumulated so far: a personal file whose parse throws is caught
by the outer handler, which returns the accumulated content. -/
def afterCollections (acc : String) : Option PersonalFile → String
  | none => finalize acc
  | some p =>
    match p.parsed with
    | none => finalize acc
    | some s => finalize (acc ++ personalBlock s)

/-- Context assembler of the API route, mirroring its sequential control
flow: blog section first, then the collections sections, then the personal
section; a thrown JSON parse error jumps to the outer catch clause, which
returns the content accumulated before the throw, and an empty final result
is replaced by the placeholder string. -/
def loadResearchContent : FS → String
  | ⟨bd, coll, pers⟩ =>
    match coll with
    | some CollectionsFile.malformed => finalize (blogSection bd)
    | none => afterCollections (blogSection bd) pers
    | some (CollectionsFile.parsed d) => afterCollections (blogSection bd ++ collSectionData d) pers

/-- Tail of a personal file as a pure section: empty when the file is
absent or its parse throws. -/
def persTail : Option PersonalFile → String
  | none => ""
  | some p =>
    match p.parsed with
    | none => ""
    | some s => personalBlock s

/-- Sections following the blog section, as a function of the collections
and personal files alone: a malformed collections file suppresses everything
after the blog section. -/
def tailSections : Option CollectionsFile → Option PersonalFile → String
  | some CollectionsFile.malformed, _ => ""
  | none, pers => persTail pers
  | some (CollectionsFile.parsed d), pers => collSectionData d ++ persTail pers

/-! Research chat API route: request handler. -/

/-- Role of a chat message. -/
inductive Role
  | user
  | assistant
deriving DecidableEq

/-- One turn of the conversation as sent over the wire. -/
structure ChatMessage where
  role : Role
  content : String
deriving DecidableEq

/-- Parsed request body; the question field is none when absent. -/
structure ChatReq where
  messages : List ChatMessage
  question : Option String
deriving DecidableEq

/-- Outcome of the completion provider call, treated as a black box: a
successful completion carries the optional first choice text, a failure
carries the thrown error message. -/
inductive ProviderOutcome
  | success (choiceContent : Option String)
  | failure (errMsg : String)

/-- JSON body of the route response; absent fields are none. -/
structure ApiResponse where
  status : Nat
  error : Option String
  message : Option String
  response : Option String
  model : Option String
  timestamp : Option String
deriving DecidableEq

/-- Observable side effects of one request: whether the research content
was loaded, whether the provider was called, and the system prompt that was
built, none when prompt building was never reached. -/
structure Effects where
  contentLoaded : Bool
  providerCalled : Bool
  prompt : Option String
deriving DecidableEq

/-- System prompt assembled around the research content. -/
def buildSystemMessage (researchContent : String) : String :=
  "You are a research assistant answering questions about my research, projects, publications, and expertise.\nYou have access to detailed information about my work including blog posts, projects, and publications.\nAnswer questions based ONLY on the information provided below.\nIf you don't have specific information to answer a question, be honest about it.\nKeep responses concise, helpful, and informative.\n\nMY RESEARCH AND WORK INFORMATION:\n" ++
  eq60 ++ "\n" ++ researchContent ++ "\n" ++ eq60 ++
  "\n\nImportant Guidelines:\n- Only answer based on the provided research content\n- If asked about something not mentioned in the content, say you don't have that specific information\n- Be helpful and direct\n- When referencing projects or publications, mention them by name\n- Provide relevant details when available"

/-- Falsiness of the question field, mirroring the double guard on the
question and on its trimmed form. -/
def blankQuestion : Option String → Bool
  | none => true
  | some q => q = "" || trimWs q = ""

/-- Classification of a provider error by the catch clause: an unauthorized
indicator in the message yields the invalid-key response, anything else the
generation-failure response carrying the underlying message. -/
def classifyGroqError (msg : String) : ApiResponse :=
  if strIncludes msg "401" || strIncludes msg "Unauthorized" then
    { status := 401
      error := some "Invalid API Key"
      message := some "Your Groq API key is invalid. Please get a free key from https://console.groq.com/keys"
      response := none, model := none, timestamp := none }
  else
    { status := 500
      error := some "Failed to generate response"
      message := some msg
      response := none, model := none, timestamp := none }

/-- Response sent when the credential is absent or empty. -/
def missingKeyResponse : ApiResponse :=
  { status := 500
    error := some "GROQ_API_KEY not configured"
    message := some "Please set GROQ_API_KEY in your .env.local file. Get a free key at https://console.groq.com/keys"
    response := none, model := none, timestamp := none }

/-- Request handler of the API route, mirroring its control flow: the
credential check first, then the body parse, then the question validation,
then content loading, prompt building and the provider call; every thrown
error is converted by the catch clause into a structured response. The
parsed body is an explicit argument, error when the body parse throws; the
provider outcome and the current timestamp string are likewise arguments. -/
def POST (apiKey : Option String) (fs : FS) (provider : ProviderOutcome)
    (nowIso : String) (body : Except String ChatReq) : ApiResponse × Effects :=
  match apiKey with
  | none => (missingKeyResponse, ⟨false, false, none⟩)
  | some key =>
    if key = "" then (missingKeyResponse, ⟨false, false, none⟩)
    else
      match body with
      | Except.error e => (classifyGroqError e, ⟨false, false, none⟩)
      | Except.ok req =>
        if blankQuestion req.question then
          ({ status := 400, error := some "Question is required"
             message := none, response := none, model := none, timestamp := none },
           ⟨false, false, none⟩)
        else
          let researchContent := loadResearchContent fs
          let systemMessage := buildSystemMessage researchContent
          match provider with
          | ProviderOutcome.failure msg =>
            (classifyGroqError msg, ⟨true, true, some systemMessage⟩)
          | ProviderOutcome.success choice =>
            ({ status := 200, error := none, message := none
               response := some (match choice with
                 | none => "Sorry, I couldn't generate a response."
                 | some c => if c = "" then "Sorry, I couldn't generate a response." else c)
               model := some "llama-3.1-8b", timestamp := some nowIso },
             ⟨true, true, some systemMessage⟩)

/-! Client chat widget session. -/

/-- One message held by the client session. -/
structure ClientMessage where
  id : String
  role : Role
  content : String
  timestamp : Nat
deriving DecidableEq

/-- Client session state: the message list, the input field value, the
loading flag marking an in-flight request, and the last error. -/
structure ChatState where
  messages : List ClientMessage
  inputValue : String
  isLoading : Bool
  error : Option String
deriving DecidableEq

/-- Send handler of the chat widget: a blank input returns immediately with
no request; otherwise the user message is appended, the input cleared, the
loading flag set, the last error cleared, and a request carrying the prior
messages and the question is issued. -/
def handleSendMessage (now : Nat) (s : ChatState) : ChatState × Option ChatReq :=
  if trimWs s.inputValue = "" then (s, none)
  else
    ({ messages := s.messages ++
         [ { id := "user_" ++ toString now, role := Role.user
             content := s.inputValue, timestamp := now } ]
       inputValue := ""
       isLoading := true
       error := none },
     some { messages := s.messages.map (fun m => { role := m.role, content := m.content })
            question := some s.inputValue })

/-- Resolution of an in-flight request: the assistant message is appended
and the loading flag cleared. -/
def resolveStep (now : Nat) (text : String) (s : ChatState) : ChatState :=
  { messages := s.messages ++
      [ { id := "assistant_" ++ toString now, role := Role.assistant
          content := text, timestamp := now } ]
    inputValue := s.inputValue
    isLoading := false
    error := s.error }

/-- Failure of an in-flight request: the last error is set and a wrapped
assistant error message appended, then the loading flag cleared. -/
def failStep (now : Nat) (msg : String) (s : ChatState) : ChatState :=
  { messages := s.messages ++
      [ { id := "assistant_error_" ++ toString now, role := Role.assistant
          content := "Sorry, I encountered an error: " ++ msg ++
            ". Please make sure the API is configured correctly."
          timestamp := now } ]
    inputValue := s.inputValue
    isLoading := false
    error := some msg }

/-- Reachable session states: the initial empty state, typing into the
input field while it is enabled, invoking the send handler, and resolution
or failure of an in-flight request. The input field is disabled while a
request is in flight, so typing requires the loading flag to be clear. -/
inductive Reach : ChatState → Prop
  | init : Reach ⟨[], "", false, none⟩
  | typeInput (v : String) (s : ChatState) :
      Reach s → s.isLoading = false → Reach { s with inputValue := v }
  | submit (now : Nat) (s : ChatState) :
      Reach s → Reach (handleSendMessage now s).1
  | resolve (now : Nat) (text : String) (s : ChatState) :
      Reach s → s.isLoading = true → Reach (resolveStep now text s)
  | fail (now : Nat) (msg : String) (s : ChatState) :
      Reach s → s.isLoading = true → Reach (failStep now msg s)

/-! Concrete instances used by the scenarios below. -/

/-- Empty filesystem: no blog directory, no collections file, no personal
file. -/
def fsEmpty : FS := ⟨none, none, none⟩

/-- Initial client session state. -/
def chatS0 : ChatState := ⟨[], "", false, none⟩

/-- Session state after typing a question. -/
def chatS1 : ChatState := { chatS0 with inputValue := "hi" }

/-- Session state right after a submit, with a request in flight. -/
def chatSW : ChatState := (handleSendMessage 1 chatS1).1

/-- Project record of the concrete scenario. -/
def pX : ProjectRec := ⟨"X", "2020", "D", some ["Go"]⟩

/-- The same project record with the optional technologies field absent. -/
def pXnoTech : ProjectRec := ⟨"X", "2020", "D", none⟩

/-- Site configuration used by concrete aggregation scenarios. -/
def site0 : SiteConfig := ⟨"https://example.org", "2024-01-01"⟩

/-- Filesystem with one readable blog file, a malformed collections file and
a present personal file. -/
def fs6 : FS :=
  ⟨some [⟨"a.mdx", some "hello"⟩], some CollectionsFile.malformed, some ⟨"rawp", none⟩⟩

/-- Blog file content whose only title pattern occurs in the body, with no
front-matter block at all. -/
def cSneaky : String := "no front matter here\ntitle: \"Sneaky\" appears only in the body"

/-- Filesystem holding only the sneaky blog file. -/
def fsSneaky : FS := ⟨some [⟨"a.mdx", some cSneaky⟩], none, none⟩

/-- Filesystem of the documented blog scenario: a front-matter title and a
short body. -/
def fsHello : FS :=
  ⟨some [⟨"my-first-post.mdx", some "---\ntitle: \"Hello\"\n---\nWorld"⟩], none, none⟩

/-- Filesystem with a blog file lacking any front-matter or title pattern. -/
def fsPlainPost : FS := ⟨some [⟨"my-post.mdx", some "Just some text"⟩], none, none⟩

/-- Filesystem with a readable blog file, an unreadable one between two
readable ones, and a personal file, for the failure isolation scenario. -/
def fsMixed : FS :=
  ⟨some [⟨"a.mdx", some "Alpha"⟩, ⟨"b.mdx", none⟩, ⟨"c.mdx", some "Gamma"⟩],
   none, some ⟨"raw", some "serial"⟩⟩

/-- Identifier list the aggregation is expected to produce, written from the
spec sentence: each identifier is derived from the source category and the
natural key of the item, the file name for blog posts and the record name for
projects and publications, with the fixed site info identifier last. -/
def naturalIds (fs : FS) : List String :=
  (match fs.blogDir with
   | none => []
   | some files => (files.filter (fun f => hasMdxExt f.name)).map (fun f => "blog_" ++ f.name)) ++
  (match fs.collections with
   | some (CollectionsFile.parsed d) =>
     (d.projects.getD []).map (fun p => "project_" ++ p.name) ++
     (d.publications.getD []).map (fun pb => "publication_" ++ pb.name)
   | _ => []) ++
  (match fs.personal with
   | none => []
   | some _ => ["site_info"])

/-! Helper lemmas. -/

/-- In every reachable session state with a request in flight, the input
field is empty: submitting clears it and typing is disabled while loading. -/
theorem reach_loading_input_empty {s : ChatState} (h : Reach s) :
    s.isLoading = true → s.inputValue = "" := by
  induction h with
  | init => intro _; rfl
  | typeInput v s hr hnl ih =>
    intro hl
    exact absurd hl (by simp [hnl])
  | submit now s hr ih =>
    intro hl
    by_cases hc : trimWs s.inputValue = ""
    · simp [handleSendMessage, hc] at hl ⊢
      exact ih hl
    · simp [handleSendMessage, hc]
  | resolve now text s hr hltrue ih =>
    intro hl
    exact absurd hl (by simp [resolveStep])
  | fail now msg s hr hltrue ih =>
    intro hl
    exact absurd hl (by simp [failStep])

/-- Keeping only the first ten mdx files of the listing does not change the
blog section. -/
theorem blogSection_take10 (files : List BlogFile) :
    blogSection (some ((files.filter (fun f => hasMdxExt f.name)).take 10)) =
    blogSection (some files) := by
  simp only [blogSection]
  have h1 : ((files.filter (fun f => hasMdxExt f.name)).take 10).filter
      (fun f => hasMdxExt f.name) = (files.filter (fun f => hasMdxExt f.name)).take 10 :=
    List.filter_eq_self.mpr
      (fun a ha =>
        (List.mem_filter.mp
          (List.take_subset 10 (files.filter (fun f => hasMdxExt f.name)) ha)).2)
  rw [h1, List.take_take]
  norm_num

/-- Identifiers produced by the blog loader loop: one per mdx file, derived
from the file name. -/
theorem loadBlogPostsFrom_ids (files : List BlogFile) :
    ∀ docs, loadBlogPostsFrom files = Except.ok docs →
      docs.map (fun d => d.id) =
        (files.filter (fun f => hasMdxExt f.name)).map (fun f => "blog_" ++ f.name) := by
  induction files with
  | nil =>
    intro docs h
    simp only [loadBlogPostsFrom, Except.ok.injEq] at h
    subst h
    rfl
  | cons f rest ih =>
    intro docs h
    by_cases hm : hasMdxExt f.name = true
    · cases hc : f.content with
      | none =>
        simp only [loadBlogPostsFrom, hm, if_true, hc] at h
        exact Except.noConfusion h
      | some c =>
        simp only [loadBlogPostsFrom, hm, if_true, hc] at h
        cases hrest : loadBlogPostsFrom rest with
        | error e => rw [hrest] at h; simp [Except.map] at h
        | ok docs2 =>
          rw [hrest] at h
          simp only [Except.map, Except.ok.injEq] at h
          subst h
          simp only [List.map_cons, List.filter_cons, hm, if_true]
          exact congrArg (fun l => ("blog_" ++ f.name) :: l) (ih docs2 hrest)
    · simp only [loadBlogPostsFrom, hm, if_false] at h
      simp only [List.filter_cons, hm, if_false]
      simp only [Bool.false_eq_true, if_false]
      exact ih docs h

/-! Claim theorems. -/

/-- Claim C1: in every reachable chat session state with a request in
flight, a second invocation of the send handler is a no-op: it appends no
user message, issues no network request, and leaves the session state
unchanged. -/
theorem c1_submit_noop_while_loading (s : ChatState) (h : Reach s)
    (hl : s.isLoading = true) (now : Nat) :
    handleSendMessage now s = (s, none) := by
  have he : s.inputValue = "" := reach_loading_input_empty h hl
  have ht : trimWs "" = "" := rfl
  unfold handleSendMessage
  rw [he, if_pos ht]

/-- Witness for claim C1: a concrete reachable in-flight state on which a
second submit changes nothing. -/
theorem c1_witness :
    chatSW.isLoading = true ∧ handleSendMessage 2 chatSW = (chatSW, none) :=
  ⟨by decide,
   c1_submit_noop_while_loading chatSW
     (Reach.submit 1 chatS1 (Reach.typeInput "hi" chatS0 Reach.init rfl))
     (by decide) 2⟩

/-- Counterexample for claim C2 as stated: when the provider credential is
absent from the environment, a blank-question request is answered with
status 500, not 400. -/
theorem c2_counterexample :
    blankQuestion (some "") = true ∧
    (POST none fsEmpty (ProviderOutcome.success none) "ts" (Except.ok ⟨[], some ""⟩)).1.status = 500 ∧
    ¬ (POST none fsEmpty (ProviderOutcome.success none) "ts" (Except.ok ⟨[], some ""⟩)).1.status = 400 := by
  decide

/-- Claim C2 as amended: provided the provider credential is configured and
non-empty, every request whose question is missing, empty or whitespace-only
is answered with status 400 and the required-question error, and neither
content loading, prompt building nor the provider call happens. -/
theorem c2_blank_question_400 (k : String) (fs : FS) (provider : ProviderOutcome)
    (nowIso : String) (msgs : List ChatMessage) (q : Option String)
    (hk : ¬ k = "") (hq : blankQuestion q = true) :
    POST (some k) fs provider nowIso (Except.ok ⟨msgs, q⟩) =
      ({ status := 400, error := some "Question is required", message := none,
         response := none, model := none, timestamp := none },
       ⟨false, false, none⟩) := by
  simp [POST, hk, hq]

/-- Witness for the amended claim C2. -/
theorem c2_witness :
    ¬ "key" = "" ∧ blankQuestion (some " ") = true ∧
    POST (some "key") fsEmpty (ProviderOutcome.success none) "ts" (Except.ok ⟨[], some " "⟩) =
      ({ status := 400, error := some "Question is required", message := none,
         response := none, model := none, timestamp := none },
       ⟨false, false, none⟩) :=
  ⟨by decide, by decide,
   c2_blank_question_400 "key" fsEmpty (ProviderOutcome.success none) "ts" [] (some " ")
     (by decide) (by decide)⟩

/-- Claim C3: with the provider credential absent, every request is answered
with status 500 and the credential-not-configured error before any other
work: no content loading, no prompt building, no provider call. -/
theorem c3_missing_key_500 (fs : FS) (provider : ProviderOutcome) (nowIso : String)
    (body : Except String ChatReq) :
    POST none fs provider nowIso body = (missingKeyResponse, ⟨false, false, none⟩) ∧
    missingKeyResponse.status = 500 ∧
    missingKeyResponse.error = some "GROQ_API_KEY not configured" :=
  ⟨rfl, rfl, rfl⟩

/-- Claim C4: every provider failure is converted into a structured
response: an unauthorized or 401 indicator in the error message yields status
401 with the invalid-key error, any other failure yields status 500 with the
generation-failure error and the underlying message. -/
theorem c4_provider_failure_classified (k : String) (fs : FS) (nowIso : String)
    (msgs : List ChatMessage) (q : String) (errMsg : String)
    (hk : ¬ k = "") (hq : ¬ trimWs q = "") :
    POST (some k) fs (ProviderOutcome.failure errMsg) nowIso (Except.ok ⟨msgs, some q⟩) =
      (classifyGroqError errMsg,
       ⟨true, true, some (buildSystemMessage (loadResearchContent fs))⟩) ∧
    classifyGroqError errMsg =
      (if strIncludes errMsg "401" || strIncludes errMsg "Unauthorized" then
        { status := 401, error := some "Invalid API Key",
          message := some "Your Groq API key is invalid. Please get a free key from https://console.groq.com/keys",
          response := none, model := none, timestamp := none }
      else
        { status := 500, error := some "Failed to generate response", message := some errMsg,
          response := none, model := none, timestamp := none }) := by
  have hq0 : ¬ q = "" := fun heq => hq (by rw [heq]; rfl)
  have hbq : blankQuestion (some q) = false := by
    simp [blankQuestion, hq0, hq]
  exact ⟨by simp [POST, hk, hbq], rfl⟩

/-- Witness for claim C4: a failure carrying an unauthorized message is
answered with status 401 and the invalid-key error. -/
theorem c4_witness :
    ¬ "key" = "" ∧ ¬ trimWs "hi" = "" ∧
    POST (some "key") fsEmpty (ProviderOutcome.failure "Unauthorized") "ts" (Except.ok ⟨[], some "hi"⟩) =
      (classifyGroqError "Unauthorized",
       ⟨true, true, some (buildSystemMessage (loadResearchContent fsEmpty))⟩) ∧
    (classifyGroqError "Unauthorized").status = 401 ∧
    (classifyGroqError "Unauthorized").error = some "Invalid API Key" :=
  ⟨by decide, by decide,
   (c4_provider_failure_classified "key" fsEmpty "ts" [] "hi" "Unauthorized"
     (by decide) (by decide)).1,
   by decide, by decide⟩

/-- Claim C5: with every content source unavailable, the context assembler
returns exactly the placeholder string, never the empty string. -/
theorem c5_placeholder_context :
    loadResearchContent ⟨none, none, none⟩ = "No research content available" ∧
    ¬ loadResearchContent ⟨none, none, none⟩ = "" := by
  decide

/-- Claim C6: with the structured-record file missing or malformed, the
aggregation completes without rejecting, the project and publication
documents are the only ones excluded, and the blog and site info documents
are still included. -/
theorem c6_structured_failure_degrades (site : SiteConfig) (fs : FS)
    (b : List ResearchDocument)
    (hcoll : fs.collections = none ∨ fs.collections = some CollectionsFile.malformed)
    (hb : loadBlogPosts fs.blogDir = Except.ok b) :
    aggregateResearchDocuments site fs = Except.ok (b ++ loadSiteInfo site fs.personal) ∧
    loadProjectsData fs.collections = [] := by
  have hp : loadProjectsData fs.collections = [] := by
    rcases hcoll with h | h <;> rw [h] <;> rfl
  refine ⟨?_, hp⟩
  unfold aggregateResearchDocuments
  rw [hb]
  simp only [hp, Except.map, List.append_nil]

/-- Witness for claim C6: a malformed collections file next to a readable
blog file and a present personal file. -/
theorem c6_witness :
    (fs6.collections = none ∨ fs6.collections = some CollectionsFile.malformed) ∧
    loadBlogPosts fs6.blogDir = Except.ok [blogDoc "a.mdx" "hello"] ∧
    (aggregateResearchDocuments site0 fs6 =
       Except.ok ([blogDoc "a.mdx" "hello"] ++ loadSiteInfo site0 fs6.personal) ∧
     loadProjectsData fs6.collections = []) :=
  ⟨Or.inr rfl, rfl,
   c6_structured_failure_degrades site0 fs6 [blogDoc "a.mdx" "hello"] (Or.inr rfl) rfl⟩

/-- Claim C7: the concrete project record yields a document with the
expected identifier, tags and technologies line, and an absent technologies
field yields the not-available label. -/
theorem c7_project_document :
    loadProjectsData (some (CollectionsFile.parsed ⟨some [pX], none⟩)) = [projectDoc pX] ∧
    (projectDoc pX).id = "project_X" ∧
    (projectDoc pX).metadata.tags = some ["project", "Go"] ∧
    (projectDoc pX).content = "Title: X\nDates: 2020\nDescription: D\nTechnologies: Go" ∧
    "Technologies: Go" ∈ strLines (projectDoc pX).content ∧
    "Technologies: N/A" ∈ strLines (projectDoc pXnoTech).content := by
  decide

/-- Counterexample for claim C8 as stated: the title extraction searches the
whole file content, so a quoted title pattern in the body of a file with no
front-matter block at all overrides the filename-derived title. -/
theorem c8_counterexample :
    fmSplit cSneaky = none ∧
    titleOf "a.mdx" cSneaky = "Sneaky" ∧
    ¬ titleOf "a.mdx" cSneaky = "a" ∧
    "[BLOG] Sneaky" ∈ strLines (loadResearchContent fsSneaky) ∧
    ¬ "[BLOG] a" ∈ strLines (loadResearchContent fsSneaky) := by
  decide

/-- Claim C8 as amended: at most ten mdx files are processed into the blog
section, each readable file contributes a tagged title line, the title
taken from the first quoted title field found anywhere in the file content
when present and else derived from the filename, followed by at most the
first 800 characters of the post-front-matter body; the documented scenario
and the filename fallback both evaluate as described. -/
theorem c8_amended_blog_assembly :
    loadResearchContent fsHello =
      "BLOG POSTS:\n" ++ eq50 ++ "\n\n[BLOG] Hello\nWorld\n...\n" ∧
    loadResearchContent fsPlainPost =
      "BLOG POSTS:\n" ++ eq50 ++ "\n\n[BLOG] my-post\nJust some text\n...\n" ∧
    (∀ (files : List BlogFile) (coll : Option CollectionsFile) (pers : Option PersonalFile),
      loadResearchContent ⟨some files, coll, pers⟩ =
        loadResearchContent ⟨some ((files.filter (fun f => hasMdxExt f.name)).take 10), coll, pers⟩) ∧
    (∀ (name c : String),
      blogEntry ⟨name, some c⟩ =
        "\n[BLOG] " ++ titleOf name c ++ "\n" ++ strTake (bodyOf c) 800 ++ "\n...\n" ∧
      (strTake (bodyOf c) 800).length ≤ 800) := by
  refine ⟨by decide, by decide, ?_, ?_⟩
  · intro files coll pers
    cases coll with
    | none =>
      simp only [loadResearchContent]
      rw [blogSection_take10]
    | some cf =>
      cases cf with
      | malformed =>
        simp only [loadResearchContent]
        rw [blogSection_take10]
      | parsed d =>
        simp only [loadResearchContent]
        rw [blogSection_take10]
  · intro name c
    refine ⟨rfl, ?_⟩
    show ((bodyOf c).data.take 800).length ≤ 800
    rw [List.length_take]
    exact min_le_left _ _

set_option maxRecDepth 100000 in
/-- Claim C10: the context assembler never rejects, each blog file whose
read throws contributes nothing while every other processed file still
contributes its entry, the sections after the blog section do not depend on
the blog directory at all, and the concrete mixed scenario skips exactly the
unreadable file. -/
theorem c10_blog_failure_isolated :
    (∀ fs : FS,
      loadResearchContent fs =
        finalize (blogSection fs.blogDir ++ tailSections fs.collections fs.personal)) ∧
    (∀ name : String, blogEntry ⟨name, none⟩ = "") ∧
    (∀ files : List BlogFile,
      blogSection (some files) =
        "BLOG POSTS:\n" ++ eq50 ++ "\n" ++
          concatAll (((files.filter (fun f => hasMdxExt f.name)).take 10).map blogEntry)) ∧
    loadResearchContent fsMixed =
      "BLOG POSTS:\n" ++ eq50 ++ "\n" ++ "\n[BLOG] a\nAlpha\n...\n" ++
        "\n[BLOG] c\nGamma\n...\n" ++
        "\n\nPERSONAL INFORMATION:\n" ++ eq50 ++ "\n" ++ "serial" := by
  refine ⟨?_, fun name => rfl, fun files => rfl, by decide⟩
  intro fs
  obtain ⟨bd, coll, pers⟩ := fs
  cases coll with
  | none =>
    cases pers with
    | none =>
      simp [loadResearchContent, afterCollections, tailSections, persTail, String.append_empty]
    | some p =>
      cases hp : p.parsed with
      | none =>
        simp [loadResearchContent, afterCollections, tailSections, persTail, hp,
          String.append_empty]
      | some s =>
        simp [loadResearchContent, afterCollections, tailSections, persTail, hp]
  | some cf =>
    cases cf with
    | malformed =>
      simp [loadResearchContent, tailSections, String.append_empty]
    | parsed d =>
      cases pers with
      | none =>
        simp [loadResearchContent, afterCollections, tailSections, persTail,
          String.append_empty]
      | some p =>
        cases hp : p.parsed with
        | none =>
          simp [loadResearchContent, afterCollections, tailSections, persTail, hp,
            String.append_empty]
        | some s =>
          simp [loadResearchContent, afterCollections, tailSections, persTail, hp,
            String.append_assoc]

/-- Claim C9: for a fixed on-disk state, two aggregation calls produce the
same identifiers position for position, and every identifier is derived
deterministically from the source category and the natural key of the item,
as described by naturalIds. -/
theorem c9_deterministic_ids (site : SiteConfig) (fs : FS)
    (docs1 docs2 : List ResearchDocument)
    (h1 : aggregateResearchDocuments site fs = Except.ok docs1)
    (h2 : aggregateResearchDocuments site fs = Except.ok docs2) :
    docs1.map (fun d => d.id) = naturalIds fs ∧
    docs1.map (fun d => d.id) = docs2.map (fun d => d.id) := by
  have hdd : docs1 = docs2 := by
    rw [h1] at h2
    exact (Except.ok.injEq _ _).mp h2
  refine ⟨?_, by rw [hdd]⟩
  unfold aggregateResearchDocuments at h1
  cases hb : loadBlogPosts fs.blogDir with
  | error e =>
    rw [hb] at h1
    exact Except.noConfusion h1
  | ok b =>
    rw [hb] at h1
    simp only [Except.map, Except.ok.injEq] at h1
    subst h1
    have e1 : b.map (fun d => d.id) =
        (match fs.blogDir with
         | none => []
         | some files =>
           (files.filter (fun f => hasMdxExt f.name)).map (fun f => "blog_" ++ f.name)) := by
      cases hbd : fs.blogDir with
      | none =>
        rw [hbd] at hb
        simp only [loadBlogPosts, Except.ok.injEq] at hb
        subst hb
        rfl
      | some files =>
        rw [hbd] at hb
        simp only [loadBlogPosts] at hb
        exact loadBlogPostsFrom_ids files b hb
    have e2 : (loadProjectsData fs.collections).map (fun d => d.id) =
        (match fs.collections with
         | some (CollectionsFile.parsed d) =>
           (d.projects.getD []).map (fun p => "project_" ++ p.name) ++
           (d.publications.getD []).map (fun pb => "publication_" ++ pb.name)
         | _ => []) := by
      cases hc : fs.collections with
      | none => rfl
      | some cf =>
        cases cf with
        | malformed => rfl
        | parsed d =>
          simp only [loadProjectsData, loadProjectsDataE, List.map_append, List.map_map]
          rfl
    have e3 : (loadSiteInfo site fs.personal).map (fun d => d.id) =
        (match fs.personal with
         | none => []
         | some _ => ["site_info"]) := by
      cases fs.personal <;> rfl
    unfold naturalIds
    rw [List.map_append, List.map_append, e1, e2, e3]

/-- Witness for claim C9: a concrete filesystem whose aggregation succeeds
and whose identifiers match the natural-key derivation. -/
theorem c9_witness :
    aggregateResearchDocuments site0 fs6 =
      Except.ok ([blogDoc "a.mdx" "hello"] ++ loadSiteInfo site0 fs6.personal) ∧
    (([blogDoc "a.mdx" "hello"] ++ loadSiteInfo site0 fs6.personal).map (fun d => d.id) =
       naturalIds fs6 ∧
     ([blogDoc "a.mdx" "hello"] ++ loadSiteInfo site0 fs6.personal).map (fun d => d.id) =
       ([blogDoc "a.mdx" "hello"] ++ loadSiteInfo site0 fs6.personal).map (fun d => d.id)) :=
  ⟨rfl,
   c9_deterministic_ids site0 fs6
     ([blogDoc "a.mdx" "hello"] ++ loadSiteInfo site0 fs6.personal)
     ([blogDoc "a.mdx" "hello"] ++ loadSiteInfo site0 fs6.personal) rfl rfl⟩
